import Mathlib

/-!
Shallow embedding of the Knowbook Canvas signup / API-key lifecycle logic:

  * src/apps/web/src/lib/knowbook-api.ts              (Backend API Client)
  * src/apps/web/src/lib/supabase/user-metadata.ts    (Credential Store Adapter)
  * src/apps/web/src/components/auth/signup/actions.ts (Signup Orchestrator)
  * src/apps/web/src/app/api/knowbook/connect/route.ts (connect endpoint)

External effects (fetch, the Supabase auth admin API) are modelled as
explicit outcome parameters: a network call is a value of an outcome type
describing what the transport returned (or that it threw), and a metadata
write is a function from the object written to the outcome of the call.
Each orchestrating function returns, besides its response, a trace of which
external calls it performed, so that properties of the form "no Backend API
call is made" can be stated.

JavaScript ISO-8601 timestamp strings (produced by Date.toISOString and read
back via new Date(s).getTime()) are represented by their epoch-millisecond
value: `JsVal.time t` stands for the ISO string for millisecond `t`.
-/

namespace KnowbookCanvas

instance {α β : Type} [DecidableEq α] [DecidableEq β] : DecidableEq (Except α β) :=
  fun x y =>
    match x, y with
    | .ok a, .ok b => if h : a = b then .isTrue (by rw [h]) else .isFalse (by simp [h])
    | .error a, .error b => if h : a = b then .isTrue (by rw [h]) else .isFalse (by simp [h])
    | .ok _, .error _ => .isFalse (by simp)
    | .error _, .ok _ => .isFalse (by simp)

/-- A JavaScript value as it occurs in the user-metadata objects of this
codebase: a string, an ISO-8601 timestamp string (identified with its
epoch-millisecond value), or `undefined`. -/
inductive JsVal where
  | str : String → JsVal
  | time : Int → JsVal
  | undef : JsVal
deriving DecidableEq, Repr

/-- JavaScript truthiness of an optional string (`undefined` and the empty
string are falsy; every other string is truthy). -/
def jsTruthy : Option String → Bool
  | none => false
  | some s => s ≠ ""

/-- The JavaScript expression `o || dflt` on an optional string. -/
def jsOrStr (o : Option String) (dflt : String) : String :=
  if jsTruthy o then o.getD "" else dflt

/-- JavaScript truthiness of a metadata field lookup result (an absent
field reads as `undefined`). -/
def jsValTruthy : Option JsVal → Bool
  | none => false
  | some .undef => false
  | some (.str s) => s ≠ ""
  | some (.time _) => true

/-- A user-metadata object: an ordered list of named fields, first
occurrence of a key wins on lookup (JavaScript objects have no duplicate
keys, so in practice keys are distinct). -/
abbrev Meta := List (String × JsVal)

/-- Reading a field of a metadata object (`m.k`); `none` means the key is
absent, i.e. the read yields `undefined`. -/
def getField : Meta → String → Option JsVal
  | [], _ => none
  | (k', v) :: rest, k => if k' = k then some v else getField rest k

/-- The JavaScript object-spread update `{...m, k: v}`: the value of `k` is
replaced in place if the key is present, appended otherwise; every other
entry is untouched. -/
def setField : Meta → String → JsVal → Meta
  | [], k, v => [(k, v)]
  | (k', v') :: rest, k, v =>
    if k' = k then (k, v) :: rest else (k', v') :: setField rest k v

/-! ### Backend API Client — src/apps/web/src/lib/knowbook-api.ts -/

/-- A Knowbook user as returned by the Backend API (interface KnowbookUser);
`api_key` is only present during creation. -/
structure KnowbookUser where
  id : String
  name : String
  email : String
  type : String
  is_active : Bool
  created_at : String
  api_key : Option String
deriving DecidableEq, Repr

/-- An organization as returned by the Backend API
(interface KnowbookOrganization). -/
structure KnowbookOrganization where
  id : String
  name : String
  slug : String
  plan : String
  max_users : Nat
  max_articles : Nat
  is_active : Bool
  created_at : String
  updated_at : String
deriving DecidableEq, Repr

/-- The argument of createOrganizationWithAdmin
(interface OrganizationSignupRequest). -/
structure OrganizationSignupRequest where
  name : String
  domain : Option String
  plan : Option String
  admin_name : String
  admin_email : String
  admin_type : Option String
deriving DecidableEq, Repr

/-- The JSON body actually sent to POST /organizations/signup by
createOrganizationWithAdmin, with the `plan` and `admin_type` defaults
applied by `||`. -/
structure SignupRequestBody where
  name : String
  domain : Option String
  plan : String
  admin_name : String
  admin_email : String
  admin_type : String
deriving DecidableEq, Repr

/-- The successful response of POST /organizations/signup
(interface OrganizationSignupResponse). -/
structure OrganizationSignupResponse where
  organization : KnowbookOrganization
  admin_user : KnowbookUser
  message : String
deriving DecidableEq, Repr

/-- An error body returned by the Backend API (interface ApiError). -/
structure ApiError where
  error : String
  detail : Option String
  status_code : Nat
deriving DecidableEq, Repr

/-- The typed error thrown by the client (class KnowbookApiError). -/
structure KnowbookApiError where
  message : String
  statusCode : Nat
  details : Option String
deriving DecidableEq, Repr

/-- Outcome of one `fetch` call: either the transport threw (with the
message of the exception) — which also covers the 5s health-check
AbortSignal timeout firing — or a response arrived with an HTTP status.
`okBody` is the result of parsing the body as the success type and
`errBody` as the error type (`Except.error` = the parse threw, carrying
the message of the exception); only the parse matching the status is ever
performed by the code. -/
inductive FetchOutcome (α β : Type) where
  | transport (msg : String)
  | resp (status : Nat) (okBody : Except String α) (errBody : Except String β)
deriving DecidableEq, Repr

/-- JavaScript `Response.ok`: status in the inclusive range 200–299. -/
def responseOk (status : Nat) : Bool :=
  200 ≤ status && status ≤ 299

/-- The JSON request body built by createOrganizationWithAdmin
(knowbook-api.ts lines 81–88). -/
def buildSignupBody (d : OrganizationSignupRequest) : SignupRequestBody :=
  { name := d.name
    domain := d.domain
    plan := jsOrStr d.plan "free"
    admin_name := d.admin_name
    admin_email := d.admin_email
    admin_type := jsOrStr d.admin_type "human" }

/-- KnowbookApiClient.createOrganizationWithAdmin (knowbook-api.ts lines
74–118). On a non-ok response the error body is parsed with a
`.catch` fallback `\x7berror: "Failed to create organization",
status_code: response.status\x7d`, and a KnowbookApiError is thrown with
the status of the response and the optional detail of the body; any other exception
(transport failure, body-parse failure) is caught and rethrown as a
KnowbookApiError with status 500 and the message of the exception as detail. -/
def createOrganizationWithAdmin (signupData : OrganizationSignupRequest)
    (fetch : FetchOutcome OrganizationSignupResponse ApiError) :
    Except KnowbookApiError OrganizationSignupResponse :=
  let _body := buildSignupBody signupData
  match fetch with
  | .transport msg =>
      .error ⟨"Network error connecting to Knowbook API", 500, some msg⟩
  | .resp status okBody errBody =>
      if responseOk status then
        match okBody with
        | .ok result => .ok result
        | .error msg =>
            .error ⟨"Network error connecting to Knowbook API", 500, some msg⟩
      else
        let errorData : ApiError :=
          match errBody with
          | .ok e => e
          | .error _ => ⟨"Failed to create organization", none, status⟩
        .error ⟨jsOrStr (some errorData.error) "Failed to create organization",
                status, errorData.detail⟩

/-- KnowbookApiClient.validateApiKey (knowbook-api.ts lines 123–137):
`response.ok`, with every exception caught and turned into `false`. -/
def validateApiKey (_apiKey : String) (fetch : FetchOutcome Unit Unit) : Bool :=
  match fetch with
  | .transport _ => false
  | .resp status _ _ => responseOk status

/-- KnowbookApiClient.healthCheck (knowbook-api.ts lines 142–154): same
contract as validateApiKey; the 5-second AbortSignal timeout surfaces as a
thrown exception, i.e. the `transport` case. -/
def healthCheck (fetch : FetchOutcome Unit Unit) : Bool :=
  match fetch with
  | .transport _ => false
  | .resp status _ _ => responseOk status

/-- Utility wrapper createKnowbookOrganization (knowbook-api.ts lines
161–175). -/
def createKnowbookOrganization (organizationName adminName adminEmail : String)
    (domain : Option String) (plan : Option String)
    (fetch : FetchOutcome OrganizationSignupResponse ApiError) :
    Except KnowbookApiError OrganizationSignupResponse :=
  createOrganizationWithAdmin
    { name := organizationName
      domain := domain
      plan := plan
      admin_name := adminName
      admin_email := adminEmail
      admin_type := none } fetch

/-- Utility wrapper isKnowbookApiAvailable (knowbook-api.ts lines 181–183). -/
def isKnowbookApiAvailable (fetch : FetchOutcome Unit Unit) : Bool :=
  healthCheck fetch

/-! ### Credential Store Adapter — src/apps/web/src/lib/supabase/user-metadata.ts -/

/-- The result of storeKnowbookApiKey: a success flag and an optional error
message — the function reports failure through this value, never by
throwing. -/
structure StoreResult where
  success : Bool
  error : Option String
deriving DecidableEq, Repr

/-- Outcome of one `supabase.auth.admin.updateUserById` call, as a function
of the metadata object passed to it: `Except.error msg` means the call
threw (with the message of the exception), `Except.ok (some msg)` means it
returned an error result with that message, `Except.ok none` means it
succeeded. -/
abbrev UpdateUserById := Meta → Except String (Option String)

/-- Converting an optional TypeScript string field into the value stored in
a metadata object (an omitted optional argument is `undefined`). -/
def optStrVal : Option String → JsVal
  | none => .undef
  | some s => .str s

/-- The metadata object built by storeKnowbookApiKey (user-metadata.ts
lines 36–42) and passed to updateUserById: exactly the five Knowbook
fields, with both timestamps stamped to the current time. -/
def storeMetadata (apiKey : String) (knowbookUserId organizationId : Option String)
    (nowMs : Int) : Meta :=
  [("knowbook_api_key", .str apiKey),
   ("knowbook_user_id", optStrVal knowbookUserId),
   ("knowbook_organization_id", optStrVal organizationId),
   ("api_key_created_at", .time nowMs),
   ("api_key_last_validated", .time nowMs)]

/-- storeKnowbookApiKey (user-metadata.ts lines 27–61): builds
`storeMetadata`, passes it to updateUserById, and maps every failure —
an error result or a thrown exception (caught by the surrounding
try/catch) — to a `success := false` result with the error message. -/
def storeKnowbookApiKey (_userId apiKey : String)
    (knowbookUserId organizationId : Option String) (nowMs : Int)
    (updateUserById : UpdateUserById) : StoreResult :=
  let metadata := storeMetadata apiKey knowbookUserId organizationId nowMs
  match updateUserById metadata with
  | .error msg => ⟨false, some msg⟩
  | .ok (some msg) => ⟨false, some msg⟩
  | .ok none => ⟨true, none⟩

/-- Outcome of the `supabase.auth.admin.getUserById` read in
updateApiKeyValidation: `Except.error msg` means it threw, `Except.ok
false` means it returned an error or no user, `Except.ok true` means it
returned the user (whose metadata is the currently stored object). -/
abbrev GetUserOutcome := Except String Bool

/-- updateApiKeyValidation (user-metadata.ts lines 88–115), expressed as a
transformer of the stored metadata object: reads the user, builds
`\x7b...currentMetadata, api_key_last_validated: now\x7d` and writes it
back; on any failure (read error, write error, or a thrown exception,
caught and only logged) the stored object is left unchanged and nothing is
raised. -/
def updateApiKeyValidation (nowMs : Int) (stored : Meta)
    (getUser : GetUserOutcome) (updateUserById : UpdateUserById) : Meta :=
  match getUser with
  | .error _ => stored
  | .ok false => stored
  | .ok true =>
      let updatedMetadata := setField stored "api_key_last_validated" (.time nowMs)
      match updateUserById updatedMetadata with
      | .error _ => stored
      | .ok (some _) => stored
      | .ok none => updatedMetadata

/-- shouldRefreshApiKey (user-metadata.ts lines 207–216): stale when
`api_key_last_validated` is falsy, else when the elapsed hours
`(now - lastValidated) / (1000*60*60)` exceed 24. A non-timestamp,
non-empty string would parse to NaN, making both the falsy test and the
comparison false. -/
def shouldRefreshApiKey (nowMs : Int) (metadata : Meta) : Bool :=
  match getField metadata "api_key_last_validated" with
  | some (.time lastValidated) =>
      decide ((((nowMs - lastValidated : Int) : ℚ)) / (1000 * 60 * 60) > 24)
  | some (.str s) => s = ""
  | _ => true

/-! ### Derived-name helpers shared by the orchestrator and the endpoint -/

/-- Splitting a character list at every occurrence of a separator, with
the semantics of JavaScript String.prototype.split on a one-character
separator (the empty string splits to one empty group). -/
def splitOnCharList (c : Char) : List Char → List (List Char)
  | [] => [[]]
  | ch :: rest =>
    let r := splitOnCharList c rest
    if ch = c then [] :: r
    else
      match r with
      | [] => [[ch]]
      | g :: gs => (ch :: g) :: gs

/-- The JavaScript expression `s.split(c)` for a one-character separator. -/
def jsSplit (s : String) (c : Char) : List String :=
  (splitOnCharList c s.toList).map String.mk

/-- The JavaScript expression `email.split('@')[0]`. -/
def emailLocalPart (email : String) : String :=
  (jsSplit email '@').headD ""

/-- The JavaScript expression `email.split('@')[1]` (which is `undefined`
when the email contains no `@`). -/
def emailDomain (email : String) : Option String :=
  (jsSplit email '@').get? 1

/-- JavaScript template-literal interpolation of a possibly-undefined
string. -/
def jsInterp : Option String → String
  | none => "undefined"
  | some s => s

/-! ### Signup Orchestrator — src/apps/web/src/components/auth/signup/actions.ts -/

/-- The signup form input (SignupWithEmailInput), restricted to the fields
the server action reads. -/
structure SignupWithEmailInput where
  email : String
  password : String
  fullName : Option String
  organizationName : Option String
  plan : Option String
deriving DecidableEq, Repr

/-- Outcome of `supabase.auth.signUp`: the returned `data.user` (its id)
and the returned error (its message), either of which may be absent. -/
structure SignUpOutcome where
  user : Option String
  error : Option String
deriving DecidableEq, Repr

/-- What a run of the signup action produced: the URL finally redirected
to, which external calls were performed, and the organization name passed
to the Backend API when the create-organization call was made. -/
structure SignupResult where
  redirect : String
  calledHealthCheck : Bool
  calledCreateOrg : Bool
  calledStore : Bool
  orgNameSent : Option String
deriving DecidableEq, Repr

/-- The server action signup (actions.ts lines 14–93). Step 1 failure
redirects to the error URL and stops; afterwards the whole Knowbook
integration sits in one try/catch whose handler only logs, so every
failure there still reaches the unconditional redirect to
/auth/signup/success. -/
def signup (input : SignupWithEmailInput) (auth : SignUpOutcome)
    (healthFetch : FetchOutcome Unit Unit)
    (orgFetch : FetchOutcome OrganizationSignupResponse ApiError)
    (nowMs : Int) (updateUserById : UpdateUserById) : SignupResult :=
  if auth.error.isSome then
    ⟨"/auth/signup?error=supabase", false, false, false, none⟩
  else
    match auth.user with
    | none => ⟨"/auth/signup/success", false, false, false, none⟩
    | some userId =>
      let isApiAvailable := isKnowbookApiAvailable healthFetch
      if isApiAvailable then
        let emailDom := emailDomain input.email
        let organizationName :=
          jsOrStr input.organizationName
            (if jsTruthy input.fullName then input.fullName.getD ""
             else emailLocalPart input.email)
        match createKnowbookOrganization organizationName
            (jsOrStr input.fullName (emailLocalPart input.email))
            input.email emailDom (some (jsOrStr input.plan "free")) orgFetch with
        | .error _ =>
            ⟨"/auth/signup/success", true, true, false, some organizationName⟩
        | .ok knowbookResult =>
            if jsTruthy knowbookResult.admin_user.api_key then
              let _ := storeKnowbookApiKey userId
                (knowbookResult.admin_user.api_key.getD "")
                (some knowbookResult.admin_user.id)
                (some knowbookResult.organization.id) nowMs updateUserById
              ⟨"/auth/signup/success", true, true, true, some organizationName⟩
            else
              ⟨"/auth/signup/success", true, true, false, some organizationName⟩
      else
        ⟨"/auth/signup/success", true, false, false, none⟩

/-! ### Connect endpoint — src/apps/web/src/app/api/knowbook/connect/route.ts -/

/-- The authenticated user as seen by the route handler: id, email (which
Supabase types as optional) and the user-metadata object. -/
structure ConnectUser where
  id : String
  email : Option String
  user_metadata : Meta
deriving DecidableEq, Repr

/-- The parsed JSON request body of POST /api/knowbook/connect. -/
structure ConnectBody where
  organizationName : Option String
  fullName : Option String
deriving DecidableEq, Repr

/-- What a run of the POST handler produced: the response status, the
response fields the claims are about, the trace of external calls and the
organization name passed to the Backend API when the create-organization
call was made. -/
structure ConnectResult where
  status : Nat
  errorMsg : Option String
  hasApiKey : Option Bool
  success : Option Bool
  calledHealthCheck : Bool
  calledCreateOrg : Bool
  calledStore : Bool
  orgNameSent : Option String
deriving DecidableEq, Repr

/-- The POST handler of /api/knowbook/connect (route.ts lines 10–123).
`body` is the outcome of `request.json()` (`Except.error` = it threw,
landing in the generic 500 handler). A KnowbookApiError from the client is
mapped to its own status code clamped to 400–599 (else 500). -/
def connectPOST (authError : Bool) (user : Option ConnectUser)
    (body : Except String ConnectBody)
    (healthFetch : FetchOutcome Unit Unit)
    (orgFetch : FetchOutcome OrganizationSignupResponse ApiError)
    (nowMs : Int) (updateUserById : UpdateUserById) : ConnectResult :=
  match user with
  | none => ⟨401, some "Unauthorized", none, none, false, false, false, none⟩
  | some u =>
    if authError then
      ⟨401, some "Unauthorized", none, none, false, false, false, none⟩
    else if jsValTruthy (getField u.user_metadata "knowbook_api_key") then
      ⟨400, some "User already has a Knowbook API key", some true, none,
        false, false, false, none⟩
    else
      match body with
      | .error _ =>
          ⟨500, some "Internal server error", none, none, false, false, false, none⟩
      | .ok b =>
        if ¬ jsTruthy u.email then
          ⟨400, some "User email is required", none, none, false, false, false, none⟩
        else
          let isApiAvailable := isKnowbookApiAvailable healthFetch
          if ¬ isApiAvailable then
            ⟨503, some "Knowbook API is currently unavailable. Please try again later.",
              none, none, true, false, false, none⟩
          else
            let email := u.email.getD ""
            let emailDom := emailDomain email
            let orgName :=
              jsOrStr b.organizationName
                (if jsTruthy b.fullName then b.fullName.getD "" ++ "\x27s Workspace"
                 else jsInterp emailDom ++ " Workspace")
            match createKnowbookOrganization orgName
                (jsOrStr b.fullName (emailLocalPart email))
                email emailDom (some "free") orgFetch with
            | .error e =>
                let st := if 400 ≤ e.statusCode ∧ e.statusCode < 600 then e.statusCode else 500
                ⟨st, some e.message, none, none, true, true, false, some orgName⟩
            | .ok knowbookResult =>
                if jsTruthy knowbookResult.admin_user.api_key then
                  let storeResult := storeKnowbookApiKey u.id
                    (knowbookResult.admin_user.api_key.getD "")
                    (some knowbookResult.admin_user.id)
                    (some knowbookResult.organization.id) nowMs updateUserById
                  if ¬ storeResult.success then
                    ⟨500, some "Failed to store API key in user profile", none, none,
                      true, true, true, some orgName⟩
                  else
                    ⟨200, none, none, some true, true, true, true, some orgName⟩
                else
                  ⟨200, none, none, some true, true, true, false, some orgName⟩

/-! ### Sample fixtures used to instantiate the theorems -/

/-- A sample organization as the Backend API would return it. -/
def sampleOrg : KnowbookOrganization :=
  ⟨"org-1", "Acme", "acme", "free", 5, 100, true, "2024-01-01", "2024-01-01"⟩

/-- A sample admin user whose creation response carries an API key. -/
def sampleAdminWithKey : KnowbookUser :=
  ⟨"ku-1", "John Doe", "johndoe@example.com", "human", true, "2024-01-01", some "kb-key"⟩

/-- A sample admin user whose creation response carries no API key. -/
def sampleAdminNoKey : KnowbookUser :=
  ⟨"ku-1", "John Doe", "johndoe@example.com", "human", true, "2024-01-01", none⟩

/-- A successful organization-signup response carrying an API key. -/
def sampleRespWithKey : OrganizationSignupResponse :=
  ⟨sampleOrg, sampleAdminWithKey, "created"⟩

/-- A successful organization-signup response with no API key field. -/
def sampleRespNoKey : OrganizationSignupResponse :=
  ⟨sampleOrg, sampleAdminNoKey, "created"⟩

/-- A 200 fetch outcome for the probe endpoints. -/
def fetchOk200 : FetchOutcome Unit Unit := .resp 200 (.ok ()) (.ok ())

/-- A 200 organization-signup fetch whose body parses to `sampleRespWithKey`. -/
def orgFetchOkWithKey : FetchOutcome OrganizationSignupResponse ApiError :=
  .resp 200 (.ok sampleRespWithKey) (.error "not parsed")

/-- A 200 organization-signup fetch whose body parses to `sampleRespNoKey`. -/
def orgFetchOkNoKey : FetchOutcome OrganizationSignupResponse ApiError :=
  .resp 200 (.ok sampleRespNoKey) (.error "not parsed")

/-- A metadata write that succeeds. -/
def updateOk : UpdateUserById := fun _ => .ok none

/-! ### Helper lemmas about metadata objects and the staleness arithmetic -/

theorem getField_setField_self (m : Meta) (k : String) (v : JsVal) :
    getField (setField m k v) k = some v := by
  induction m with
  | nil => simp [setField, getField]
  | cons p rest ih =>
    obtain ⟨k', v'⟩ := p
    by_cases h : k' = k
    · simp [setField, getField, h]
    · simp [setField, getField, h, ih]

theorem getField_setField_ne (m : Meta) (k k' : String) (v : JsVal) (h : k' ≠ k) :
    getField (setField m k v) k' = getField m k' := by
  induction m with
  | nil => simp [setField, getField, Ne.symm h]
  | cons p rest ih =>
    obtain ⟨k₀, v₀⟩ := p
    by_cases h₀ : k₀ = k
    · subst h₀
      simp [setField, getField, Ne.symm h]
    · simp only [setField, if_neg h₀, getField]
      by_cases h₁ : k₀ = k'
      · simp [h₁]
      · simp [h₁, ih]

theorem hours_gt_24_iff (d : Int) :
    (((d : ℚ)) / (1000 * 60 * 60) > 24 ↔ d > 86400000) := by
  rw [gt_iff_lt, lt_div_iff₀ (by norm_num : (0 : ℚ) < 1000 * 60 * 60), gt_iff_lt]
  constructor
  · intro h
    exact_mod_cast h
  · intro h
    exact_mod_cast h

/-! ### Claim theorems -/

/-- C6: shouldRefreshApiKey is a pure function of the Credential Record
returning true iff `api_key_last_validated` is absent or strictly more
than 24 hours before the current time; a record last validated exactly
24h + 1s ago is stale and one validated exactly 23h59m59s ago is not. -/
theorem shouldRefreshApiKey_spec (nowMs : Int) (m : Meta) :
    (getField m "api_key_last_validated" = none →
       shouldRefreshApiKey nowMs m = true) ∧
    (∀ t : Int, getField m "api_key_last_validated" = some (.time t) →
       (shouldRefreshApiKey nowMs m = true ↔ nowMs - t > 86400000)) ∧
    shouldRefreshApiKey nowMs
      [("api_key_last_validated", .time (nowMs - 86401000))] = true ∧
    shouldRefreshApiKey nowMs
      [("api_key_last_validated", .time (nowMs - 86399000))] = false := by
  refine ⟨?_, ?_, ?_, ?_⟩
  · intro h
    simp [shouldRefreshApiKey, h]
  · intro t h
    simp only [shouldRefreshApiKey, h]
    rw [decide_eq_true_eq, hours_gt_24_iff]
  · have hg : getField [("api_key_last_validated", JsVal.time (nowMs - 86401000))]
        "api_key_last_validated" = some (JsVal.time (nowMs - 86401000)) := by
      simp [getField]
    simp only [shouldRefreshApiKey, hg]
    rw [decide_eq_true_eq,
        show nowMs - (nowMs - 86401000) = (86401000 : Int) by ring,
        hours_gt_24_iff]
    norm_num
  · have hg : getField [("api_key_last_validated", JsVal.time (nowMs - 86399000))]
        "api_key_last_validated" = some (JsVal.time (nowMs - 86399000)) := by
      simp [getField]
    simp only [shouldRefreshApiKey, hg]
    rw [decide_eq_false_iff_not,
        show nowMs - (nowMs - 86399000) = (86399000 : Int) by ring,
        hours_gt_24_iff]
    norm_num

/-- C6 witness: at a concrete record and time, the general clause and both
concrete staleness boundaries. -/
theorem shouldRefreshApiKey_spec_witness :
    (shouldRefreshApiKey 100000000000 [("api_key_last_validated", .time 0)] = true ↔
       (100000000000 : Int) - 0 > 86400000) ∧
    shouldRefreshApiKey 100000000000
      [("api_key_last_validated", .time (100000000000 - 86401000))] = true ∧
    shouldRefreshApiKey 100000000000
      [("api_key_last_validated", .time (100000000000 - 86399000))] = false := by
  refine ⟨(shouldRefreshApiKey_spec 100000000000
    [("api_key_last_validated", .time 0)]).2.1 0 (by decide), ?_, ?_⟩
  · exact (shouldRefreshApiKey_spec 100000000000
      [("api_key_last_validated", .time 0)]).2.2.1
  · exact (shouldRefreshApiKey_spec 100000000000
      [("api_key_last_validated", .time 0)]).2.2.2

/-- C7: storeKnowbookApiKey never raises — every failure outcome of the
metadata write (a thrown exception as well as an error result) is returned
as a success-false result carrying the error message — and the written
object stamps both `api_key_created_at` and `api_key_last_validated` to the
current time, so the freshly stored record is inside the staleness
window. -/
theorem storeKnowbookApiKey_spec (userId apiKey : String)
    (kuid orgId : Option String) (nowMs : Int) (f : UpdateUserById) :
    (∀ msg, f (storeMetadata apiKey kuid orgId nowMs) = .error msg →
       storeKnowbookApiKey userId apiKey kuid orgId nowMs f = ⟨false, some msg⟩) ∧
    (∀ msg, f (storeMetadata apiKey kuid orgId nowMs) = .ok (some msg) →
       storeKnowbookApiKey userId apiKey kuid orgId nowMs f = ⟨false, some msg⟩) ∧
    (f (storeMetadata apiKey kuid orgId nowMs) = .ok none →
       storeKnowbookApiKey userId apiKey kuid orgId nowMs f = ⟨true, none⟩) ∧
    getField (storeMetadata apiKey kuid orgId nowMs) "api_key_created_at"
      = some (.time nowMs) ∧
    getField (storeMetadata apiKey kuid orgId nowMs) "api_key_last_validated"
      = some (.time nowMs) ∧
    shouldRefreshApiKey nowMs (storeMetadata apiKey kuid orgId nowMs) = false := by
  refine ⟨?_, ?_, ?_, by simp [storeMetadata, getField],
    by simp [storeMetadata, getField], ?_⟩
  · intro msg h
    simp [storeKnowbookApiKey, h]
  · intro msg h
    simp [storeKnowbookApiKey, h]
  · intro h
    simp [storeKnowbookApiKey, h]
  · have hg : getField (storeMetadata apiKey kuid orgId nowMs)
        "api_key_last_validated" = some (JsVal.time nowMs) := by
      simp [storeMetadata, getField]
    simp only [shouldRefreshApiKey, hg]
    rw [decide_eq_false_iff_not, show nowMs - nowMs = (0 : Int) by ring,
        hours_gt_24_iff]
    norm_num

/-- C7 witness: a concrete store whose write fails with a thrown exception
returns success-false with the message, and the concrete written object is
fresh. -/
theorem storeKnowbookApiKey_spec_witness :
    storeKnowbookApiKey "uid" "kb-key" (some "ku-1") (some "org-1") 1000
        (fun _ => .error "network down") = ⟨false, some "network down"⟩ ∧
    shouldRefreshApiKey 1000 (storeMetadata "kb-key" (some "ku-1") (some "org-1") 1000)
        = false := by
  refine ⟨?_, ?_⟩
  · exact (storeKnowbookApiKey_spec "uid" "kb-key" (some "ku-1") (some "org-1") 1000
      (fun _ => .error "network down")).1 "network down" rfl
  · exact (storeKnowbookApiKey_spec "uid" "kb-key" (some "ku-1") (some "org-1") 1000
      (fun _ => .error "network down")).2.2.2.2.2

/-- C8: updateApiKeyValidation changes only `api_key_last_validated`; every
other field of the stored metadata reads the same afterwards; on any
failure (read throw, missing user, write error or write throw) the stored
object is completely unchanged and nothing is raised; on success the
`api_key_last_validated` field reads as the current time. -/
theorem updateApiKeyValidation_spec (nowMs : Int) (stored : Meta)
    (g : GetUserOutcome) (f : UpdateUserById) :
    (∀ k, k ≠ "api_key_last_validated" →
       getField (updateApiKeyValidation nowMs stored g f) k = getField stored k) ∧
    (∀ msg, g = .error msg → updateApiKeyValidation nowMs stored g f = stored) ∧
    (g = .ok false → updateApiKeyValidation nowMs stored g f = stored) ∧
    (g = .ok true →
       f (setField stored "api_key_last_validated" (.time nowMs)) ≠ .ok none →
       updateApiKeyValidation nowMs stored g f = stored) ∧
    (g = .ok true →
       f (setField stored "api_key_last_validated" (.time nowMs)) = .ok none →
       getField (updateApiKeyValidation nowMs stored g f) "api_key_last_validated"
         = some (.time nowMs)) := by
  refine ⟨?_, ?_, ?_, ?_, ?_⟩
  · intro k hk
    unfold updateApiKeyValidation
    match g with
    | .error _ => rfl
    | .ok false => rfl
    | .ok true =>
      simp only
      match hf : f (setField stored "api_key_last_validated" (.time nowMs)) with
      | .error _ => rfl
      | .ok (some _) => rfl
      | .ok none => exact getField_setField_ne stored "api_key_last_validated" k _ hk
  · intro msg h
    simp [updateApiKeyValidation, h]
  · intro h
    simp [updateApiKeyValidation, h]
  · intro h hf
    subst h
    unfold updateApiKeyValidation
    simp only
    match hres : f (setField stored "api_key_last_validated" (.time nowMs)) with
    | .error _ => rfl
    | .ok (some _) => rfl
    | .ok none => exact absurd hres hf
  · intro h hf
    subst h
    simp [updateApiKeyValidation, hf, getField_setField_self]

/-- C8 witness: at a concrete stored object with an unrelated `full_name`
field, a successful touch preserves `full_name` and updates the
validation timestamp, and a failing write leaves the object unchanged. -/
theorem updateApiKeyValidation_spec_witness :
    getField (updateApiKeyValidation 5000
        [("full_name", .str "John"), ("api_key_last_validated", .time 0)]
        (.ok true) updateOk) "full_name" = some (.str "John") ∧
    getField (updateApiKeyValidation 5000
        [("full_name", .str "John"), ("api_key_last_validated", .time 0)]
        (.ok true) updateOk) "api_key_last_validated" = some (.time 5000) ∧
    updateApiKeyValidation 5000
        [("full_name", .str "John"), ("api_key_last_validated", .time 0)]
        (.ok true) (fun _ => .error "boom")
      = [("full_name", .str "John"), ("api_key_last_validated", .time 0)] := by
  refine ⟨?_, ?_, ?_⟩
  · have h := (updateApiKeyValidation_spec 5000
      [("full_name", .str "John"), ("api_key_last_validated", .time 0)]
      (.ok true) updateOk).1 "full_name" (by decide)
    rw [h]
    rfl
  · exact (updateApiKeyValidation_spec 5000
      [("full_name", .str "John"), ("api_key_last_validated", .time 0)]
      (.ok true) updateOk).2.2.2.2 rfl rfl
  · exact (updateApiKeyValidation_spec 5000
      [("full_name", .str "John"), ("api_key_last_validated", .time 0)]
      (.ok true) (fun _ => .error "boom")).2.2.2.1 rfl (by decide)

/-- C10: the object storeKnowbookApiKey writes contains exactly the five
Knowbook fields in order and no others; in particular any previously
stored field outside the five, such as `full_name`, is absent from the
written object (the write does not merge prior metadata). -/
theorem storeMetadata_exact_fields (apiKey : String)
    (kuid orgId : Option String) (nowMs : Int) :
    (storeMetadata apiKey kuid orgId nowMs).map Prod.fst =
      ["knowbook_api_key", "knowbook_user_id", "knowbook_organization_id",
       "api_key_created_at", "api_key_last_validated"] ∧
    (∀ k : String,
       k ∉ ["knowbook_api_key", "knowbook_user_id", "knowbook_organization_id",
            "api_key_created_at", "api_key_last_validated"] →
       getField (storeMetadata apiKey kuid orgId nowMs) k = none) ∧
    getField (storeMetadata apiKey kuid orgId nowMs) "full_name" = none := by
  refine ⟨by simp [storeMetadata], ?_, ?_⟩
  · intro k hk
    simp only [List.mem_cons, List.not_mem_nil, or_false, not_or] at hk
    obtain ⟨h1, h2, h3, h4, h5⟩ := hk
    simp [storeMetadata, getField, Ne.symm h1, Ne.symm h2, Ne.symm h3,
      Ne.symm h4, Ne.symm h5]
  · simp [storeMetadata, getField]

/-- C10 witness: at concrete arguments, the key list is exactly the five
Knowbook fields and a prior `full_name` field is not among them. -/
theorem storeMetadata_exact_fields_witness :
    (storeMetadata "kb-key" (some "ku-1") none 1000).map Prod.fst =
      ["knowbook_api_key", "knowbook_user_id", "knowbook_organization_id",
       "api_key_created_at", "api_key_last_validated"] ∧
    getField (storeMetadata "kb-key" (some "ku-1") none 1000) "avatar_url" = none := by
  refine ⟨(storeMetadata_exact_fields "kb-key" (some "ku-1") none 1000).1, ?_⟩
  exact (storeMetadata_exact_fields "kb-key" (some "ku-1") none 1000).2.1
    "avatar_url" (by decide)

/-- C4: createOrganizationWithAdmin never returns a partial result: on any
non-2xx response it throws a KnowbookApiError carrying the status code of
that response and the server-supplied detail (absent when the error body
does not parse), on transport failure it throws the same typed error with
synthetic status 500 and the message of the transport exception as detail, and
it returns successfully only for a parsed 2xx response. -/
theorem createOrganizationWithAdmin_spec (d : OrganizationSignupRequest)
    (fetch : FetchOutcome OrganizationSignupResponse ApiError) :
    (∀ msg, fetch = .transport msg →
       createOrganizationWithAdmin d fetch =
         .error ⟨"Network error connecting to Knowbook API", 500, some msg⟩) ∧
    (∀ status ob eb, fetch = .resp status ob eb → responseOk status = false →
       ∃ e : KnowbookApiError,
         createOrganizationWithAdmin d fetch = .error e ∧
         e.statusCode = status ∧
         e.details = (match eb with | .ok b => b.detail | .error _ => none)) ∧
    (∀ r, createOrganizationWithAdmin d fetch = .ok r →
       ∃ status eb, fetch = .resp status (.ok r) eb ∧ responseOk status = true) := by
  refine ⟨?_, ?_, ?_⟩
  · intro msg h
    subst h
    rfl
  · intro status ob eb h hok
    subst h
    rcases eb with msg | b
    · refine ⟨⟨jsOrStr (some "Failed to create organization")
        "Failed to create organization", status, none⟩, ?_, rfl, rfl⟩
      simp [createOrganizationWithAdmin, hok]
    · refine ⟨⟨jsOrStr (some b.error) "Failed to create organization",
        status, b.detail⟩, ?_, rfl, rfl⟩
      simp [createOrganizationWithAdmin, hok]
  · intro r h
    rcases fetch with msg | ⟨status, ob, eb⟩
    · simp [createOrganizationWithAdmin] at h
    · by_cases hok : responseOk status = true
      · rcases ob with msg | result
        · simp [createOrganizationWithAdmin, hok] at h
        · simp only [createOrganizationWithAdmin, hok, if_true,
            Except.ok.injEq] at h
          subst h
          exact ⟨status, eb, rfl, hok⟩
      · rw [Bool.not_eq_true] at hok
        rcases eb with msg | b <;> simp [createOrganizationWithAdmin, hok] at h

/-- C4 witness: a concrete transport failure yields the synthetic-500
typed error, and a concrete 422 response with a parsed error body yields a
typed error with status 422 and the server-supplied detail string. -/
theorem createOrganizationWithAdmin_spec_witness :
    createOrganizationWithAdmin ⟨"Acme", none, none, "John", "j@e.com", none⟩
        (.transport "connection refused")
      = .error ⟨"Network error connecting to Knowbook API", 500,
                some "connection refused"⟩ ∧
    ∃ e : KnowbookApiError,
      createOrganizationWithAdmin ⟨"Acme", none, none, "John", "j@e.com", none⟩
          (.resp 422 (.error "unparsed") (.ok ⟨"Org exists", some "duplicate slug", 422⟩))
        = .error e ∧ e.statusCode = 422 ∧ e.details = some "duplicate slug" := by
  refine ⟨(createOrganizationWithAdmin_spec ⟨"Acme", none, none, "John", "j@e.com", none⟩
    (.transport "connection refused")).1 "connection refused" rfl, ?_⟩
  obtain ⟨e, h1, h2, h3⟩ := (createOrganizationWithAdmin_spec
    ⟨"Acme", none, none, "John", "j@e.com", none⟩
    (.resp 422 (.error "unparsed") (.ok ⟨"Org exists", some "duplicate slug", 422⟩))).2.1
    422 (.error "unparsed") (.ok ⟨"Org exists", some "duplicate slug", 422⟩) rfl (by decide)
  exact ⟨e, h1, h2, h3⟩

/-- C5: validateApiKey and healthCheck never throw — every transport
exception (including the client-side timeout of the health check) and every
non-2xx response resolve to false, and they resolve to true exactly when
the HTTP response has a success status. -/
theorem validateApiKey_healthCheck_spec (apiKey : String)
    (fetch : FetchOutcome Unit Unit) :
    (∀ msg, fetch = .transport msg →
       validateApiKey apiKey fetch = false ∧ healthCheck fetch = false) ∧
    (∀ status ob eb, fetch = .resp status ob eb →
       validateApiKey apiKey fetch = responseOk status ∧
       healthCheck fetch = responseOk status) ∧
    (validateApiKey apiKey fetch = true ↔
       ∃ status ob eb, fetch = .resp status ob eb ∧ responseOk status = true) ∧
    (healthCheck fetch = true ↔
       ∃ status ob eb, fetch = .resp status ob eb ∧ responseOk status = true) := by
  refine ⟨?_, ?_, ?_, ?_⟩
  · intro msg h
    subst h
    exact ⟨rfl, rfl⟩
  · intro status ob eb h
    subst h
    exact ⟨rfl, rfl⟩
  · rcases fetch with msg | ⟨status, ob, eb⟩
    · simp [validateApiKey]
    · simp only [validateApiKey]
      constructor
      · intro h
        exact ⟨status, ob, eb, rfl, h⟩
      · rintro ⟨s, o, e, heq, hs⟩
        cases heq
        exact hs
  · rcases fetch with msg | ⟨status, ob, eb⟩
    · simp [healthCheck]
    · simp only [healthCheck]
      constructor
      · intro h
        exact ⟨status, ob, eb, rfl, h⟩
      · rintro ⟨s, o, e, heq, hs⟩
        cases heq
        exact hs

/-- C5 witness: at a concrete transport failure both probes resolve to
false, a concrete 503 resolves to false, and a concrete 200 resolves to
true. -/
theorem validateApiKey_healthCheck_spec_witness :
    (validateApiKey "kb-key" (.transport "timeout") = false ∧
       healthCheck (.transport "timeout") = false) ∧
    validateApiKey "kb-key" (.resp 503 (.ok ()) (.ok ())) = false ∧
    healthCheck fetchOk200 = true := by
  refine ⟨(validateApiKey_healthCheck_spec "kb-key" (.transport "timeout")).1
    "timeout" rfl, ?_, ?_⟩
  · exact ((validateApiKey_healthCheck_spec "kb-key"
      (.resp 503 (.ok ()) (.ok ()))).2.1 503 (.ok ()) (.ok ()) rfl).1.trans (by decide)
  · exact (validateApiKey_healthCheck_spec "kb-key" fetchOk200).2.2.2.mpr
      ⟨200, .ok (), .ok (), rfl, by decide⟩

/-- C2: the signup workflow has a two-tier failure policy: an auth-step
error redirects to the error-carrying signup URL with no Backend API call
at all; once the account exists the workflow always ends at the
email-confirmation page, and when the health check is false neither the
create-organization call nor the credential write happens. -/
theorem signup_failure_policy (input : SignupWithEmailInput) (auth : SignUpOutcome)
    (hf : FetchOutcome Unit Unit)
    (of : FetchOutcome OrganizationSignupResponse ApiError)
    (nowMs : Int) (f : UpdateUserById) :
    (auth.error.isSome = true →
       signup input auth hf of nowMs f =
         ⟨"/auth/signup?error=supabase", false, false, false, none⟩) ∧
    (auth.error = none →
       (signup input auth hf of nowMs f).redirect = "/auth/signup/success") ∧
    (auth.error = none → healthCheck hf = false →
       signup input auth hf of nowMs f =
         ⟨"/auth/signup/success", auth.user.isSome, false, false, none⟩) := by
  obtain ⟨user, error⟩ := auth
  refine ⟨?_, ?_, ?_⟩
  · intro h
    simp only [signup, h, if_true]
  · intro h
    dsimp only at h
    subst h
    rcases user with _ | uid
    · rfl
    · cases hav : isKnowbookApiAvailable hf
      · simp [signup, hav]
      · simp [signup, hav]
        all_goals split <;> (try split) <;> rfl
  · intro h hhc
    dsimp only at h
    subst h
    rcases user with _ | uid
    · rfl
    · simp [signup, isKnowbookApiAvailable, hhc]

/-- C2 witness: a concrete auth failure redirects to the error URL with no
external call, and a concrete auth success with an unreachable Backend API
still lands on the confirmation page with no organization call and no
credential write. -/
theorem signup_failure_policy_witness :
    signup ⟨"johndoe@example.com", "pw", none, none, none⟩
        ⟨none, some "duplicate email"⟩ fetchOk200 orgFetchOkWithKey 0 updateOk
      = ⟨"/auth/signup?error=supabase", false, false, false, none⟩ ∧
    signup ⟨"johndoe@example.com", "pw", none, none, none⟩
        ⟨some "uid", none⟩ (.transport "down") orgFetchOkWithKey 0 updateOk
      = ⟨"/auth/signup/success", true, false, false, none⟩ := by
  refine ⟨(signup_failure_policy ⟨"johndoe@example.com", "pw", none, none, none⟩
    ⟨none, some "duplicate email"⟩ fetchOk200 orgFetchOkWithKey 0 updateOk).1 rfl, ?_⟩
  exact (signup_failure_policy ⟨"johndoe@example.com", "pw", none, none, none⟩
    ⟨some "uid", none⟩ (.transport "down") orgFetchOkWithKey 0 updateOk).2.2 rfl rfl

/-- C3: an authenticated POST to /api/knowbook/connect whose user metadata
already carries a truthy knowbook_api_key answers 400 with hasApiKey true
and performs no Backend API call and no credential write, so the endpoint
never creates a second Credential Record for the account. -/
theorem connectPOST_existing_key (u : ConnectUser) (body : Except String ConnectBody)
    (hf : FetchOutcome Unit Unit)
    (of : FetchOutcome OrganizationSignupResponse ApiError)
    (nowMs : Int) (f : UpdateUserById)
    (h : jsValTruthy (getField u.user_metadata "knowbook_api_key") = true) :
    connectPOST false (some u) body hf of nowMs f =
      ⟨400, some "User already has a Knowbook API key", some true, none,
        false, false, false, none⟩ := by
  simp [connectPOST, h]

/-- C3 witness: a concrete user whose metadata holds a key receives the
400 / hasApiKey-true response with an empty call trace. -/
theorem connectPOST_existing_key_witness :
    connectPOST false
        (some ⟨"uid", some "johndoe@example.com", [("knowbook_api_key", .str "kb-key")]⟩)
        (.ok ⟨none, none⟩) fetchOk200 orgFetchOkWithKey 0 updateOk
      = ⟨400, some "User already has a Knowbook API key", some true, none,
          false, false, false, none⟩ :=
  connectPOST_existing_key
    ⟨"uid", some "johndoe@example.com", [("knowbook_api_key", .str "kb-key")]⟩
    (.ok ⟨none, none⟩) fetchOk200 orgFetchOkWithKey 0 updateOk (by decide)

/-- C9: when the organization-signup call succeeds but the returned
admin_user carries no truthy api_key, the endpoint skips the credential
write entirely and still answers 200 with success true. -/
theorem connectPOST_missing_api_key (u : ConnectUser) (b : ConnectBody)
    (hf : FetchOutcome Unit Unit) (st : Nat) (r : OrganizationSignupResponse)
    (eb : Except String ApiError) (nowMs : Int) (f : UpdateUserById)
    (hkey : jsValTruthy (getField u.user_metadata "knowbook_api_key") = false)
    (hemail : jsTruthy u.email = true)
    (hhc : healthCheck hf = true)
    (hst : responseOk st = true)
    (hnokey : jsTruthy r.admin_user.api_key = false) :
    (connectPOST false (some u) (.ok b) hf (.resp st (.ok r) eb) nowMs f).status = 200 ∧
    (connectPOST false (some u) (.ok b) hf (.resp st (.ok r) eb) nowMs f).success
      = some true ∧
    (connectPOST false (some u) (.ok b) hf (.resp st (.ok r) eb) nowMs f).calledStore
      = false ∧
    (connectPOST false (some u) (.ok b) hf (.resp st (.ok r) eb) nowMs f).calledCreateOrg
      = true := by
  simp [connectPOST, hkey, hemail, isKnowbookApiAvailable, hhc,
    createKnowbookOrganization, createOrganizationWithAdmin, hst, hnokey]

/-- C9 witness: a concrete run whose organization response has no api_key
field answers 200 / success true without a credential write. -/
theorem connectPOST_missing_api_key_witness :
    (connectPOST false (some ⟨"uid", some "johndoe@example.com", []⟩)
        (.ok ⟨none, none⟩) fetchOk200
        (.resp 200 (.ok sampleRespNoKey) (.error "not parsed")) 0 updateOk).status
      = 200 ∧
    (connectPOST false (some ⟨"uid", some "johndoe@example.com", []⟩)
        (.ok ⟨none, none⟩) fetchOk200
        (.resp 200 (.ok sampleRespNoKey) (.error "not parsed")) 0 updateOk).calledStore
      = false := by
  have h := connectPOST_missing_api_key ⟨"uid", some "johndoe@example.com", []⟩
    ⟨none, none⟩ fetchOk200 200 sampleRespNoKey (.error "not parsed") 0 updateOk
    (by decide) (by decide) (by decide) (by decide) (by decide)
  exact ⟨h.1, h.2.2.1⟩

/-- When the auth step succeeded and the health check is true, the signup
action always reaches the create-organization call, passing the name
resolved by organizationName, else fullName, else the email local part. -/
theorem signup_orgNameSent (input : SignupWithEmailInput) (uid : String)
    (hf : FetchOutcome Unit Unit)
    (of : FetchOutcome OrganizationSignupResponse ApiError)
    (nowMs : Int) (f : UpdateUserById) (hhc : healthCheck hf = true) :
    (signup input ⟨some uid, none⟩ hf of nowMs f).orgNameSent =
      some (jsOrStr input.organizationName
        (if jsTruthy input.fullName then input.fullName.getD ""
         else emailLocalPart input.email)) := by
  have hav : isKnowbookApiAvailable hf = true := hhc
  simp [signup, hav]
  all_goals split <;> (try split) <;> rfl

/-- When the caller is authenticated with no stored key, a parsed body and
a truthy email, and the health check is true, the connect endpoint always
reaches the create-organization call, passing the name resolved by
organizationName, else the fullName Workspace template, else the email
domain Workspace template. -/
theorem connectPOST_orgNameSent (u : ConnectUser) (b : ConnectBody)
    (hf : FetchOutcome Unit Unit)
    (of : FetchOutcome OrganizationSignupResponse ApiError)
    (nowMs : Int) (f : UpdateUserById)
    (hkey : jsValTruthy (getField u.user_metadata "knowbook_api_key") = false)
    (hemail : jsTruthy u.email = true) (hhc : healthCheck hf = true) :
    (connectPOST false (some u) (.ok b) hf of nowMs f).orgNameSent =
      some (jsOrStr b.organizationName
        (if jsTruthy b.fullName then b.fullName.getD "" ++ "\x27s Workspace"
         else jsInterp (emailDomain (u.email.getD "")) ++ " Workspace")) := by
  have hav : isKnowbookApiAvailable hf = true := hhc
  simp [connectPOST, hkey, hemail, hav]
  all_goals split <;> (try split) <;> (try split) <;> rfl

/-- C1 counterexample: in the connect endpoint, a request with neither an
explicit organizationName nor a fullName for a user whose email is
johndoe@example.com sends the Backend API the name
"example.com Workspace", not the email local part "johndoe" that the
claim requires. -/
theorem connect_orgName_counterexample :
    (connectPOST false (some ⟨"uid", some "johndoe@example.com", []⟩)
        (.ok ⟨none, none⟩) fetchOk200 (.transport "down") 0 updateOk).orgNameSent
      = some "example.com Workspace" ∧
    emailLocalPart "johndoe@example.com" = "johndoe" ∧
    ("example.com Workspace" : String) ≠ "johndoe" := by
  refine ⟨by decide, by decide, by decide⟩

/-- C1 amended: the signup action resolves the organization name by the
precedence organizationName, else fullName, else the email local part;
the connect endpoint resolves it by the precedence organizationName, else
fullName followed by "\x27s Workspace", else the email domain followed by
" Workspace". -/
theorem orgName_resolution_spec :
    (∀ (input : SignupWithEmailInput) (userId : String)
       (hf : FetchOutcome Unit Unit)
       (of : FetchOutcome OrganizationSignupResponse ApiError)
       (nowMs : Int) (f : UpdateUserById),
       healthCheck hf = true →
       ((jsTruthy input.organizationName = true →
           (signup input ⟨some userId, none⟩ hf of nowMs f).orgNameSent
             = some (input.organizationName.getD "")) ∧
        (jsTruthy input.organizationName = false → jsTruthy input.fullName = true →
           (signup input ⟨some userId, none⟩ hf of nowMs f).orgNameSent
             = some (input.fullName.getD "")) ∧
        (jsTruthy input.organizationName = false → jsTruthy input.fullName = false →
           (signup input ⟨some userId, none⟩ hf of nowMs f).orgNameSent
             = some (emailLocalPart input.email)))) ∧
    (∀ (u : ConnectUser) (b : ConnectBody) (hf : FetchOutcome Unit Unit)
       (of : FetchOutcome OrganizationSignupResponse ApiError)
       (nowMs : Int) (f : UpdateUserById),
       jsValTruthy (getField u.user_metadata "knowbook_api_key") = false →
       jsTruthy u.email = true →
       healthCheck hf = true →
       ((jsTruthy b.organizationName = true →
           (connectPOST false (some u) (.ok b) hf of nowMs f).orgNameSent
             = some (b.organizationName.getD "")) ∧
        (jsTruthy b.organizationName = false → jsTruthy b.fullName = true →
           (connectPOST false (some u) (.ok b) hf of nowMs f).orgNameSent
             = some (b.fullName.getD "" ++ "\x27s Workspace")) ∧
        (jsTruthy b.organizationName = false → jsTruthy b.fullName = false →
           (connectPOST false (some u) (.ok b) hf of nowMs f).orgNameSent
             = some (jsInterp (emailDomain (u.email.getD "")) ++ " Workspace")))) := by
  constructor
  · intro input userId hf of nowMs f hhc
    refine ⟨?_, ?_, ?_⟩
    · intro ho
      rw [signup_orgNameSent input userId hf of nowMs f hhc]
      simp [jsOrStr, ho]
    · intro ho hfn
      rw [signup_orgNameSent input userId hf of nowMs f hhc]
      simp [jsOrStr, ho, hfn]
    · intro ho hfn
      rw [signup_orgNameSent input userId hf of nowMs f hhc]
      simp [jsOrStr, ho, hfn]
  · intro u b hf of nowMs f hkey hemail hhc
    refine ⟨?_, ?_, ?_⟩
    · intro ho
      rw [connectPOST_orgNameSent u b hf of nowMs f hkey hemail hhc]
      simp [jsOrStr, ho]
    · intro ho hfn
      rw [connectPOST_orgNameSent u b hf of nowMs f hkey hemail hhc]
      simp [jsOrStr, ho, hfn]
    · intro ho hfn
      rw [connectPOST_orgNameSent u b hf of nowMs f hkey hemail hhc]
      simp [jsOrStr, ho, hfn]

/-- C1 amended witness: with no explicit names the signup action sends the
email local part, and with only a fullName the connect endpoint sends the
fullName with the Workspace suffix. -/
theorem orgName_resolution_spec_witness :
    (signup ⟨"johndoe@example.com", "pw", none, none, none⟩ ⟨some "uid", none⟩
        fetchOk200 (.transport "down") 0 updateOk).orgNameSent
      = some (emailLocalPart "johndoe@example.com") ∧
    (connectPOST false (some ⟨"uid", some "johndoe@example.com", []⟩)
        (.ok ⟨none, some "John"⟩) fetchOk200 (.transport "down") 0 updateOk).orgNameSent
      = some ("John" ++ "\x27s Workspace") := by
  refine ⟨(orgName_resolution_spec.1 ⟨"johndoe@example.com", "pw", none, none, none⟩
    "uid" fetchOk200 (.transport "down") 0 updateOk (by decide)).2.2
    (by decide) (by decide), ?_⟩
  exact (orgName_resolution_spec.2 ⟨"uid", some "johndoe@example.com", []⟩
    ⟨none, some "John"⟩ fetchOk200 (.transport "down") 0 updateOk
    (by decide) (by decide) (by decide)).2.1 (by decide) (by decide)

end KnowbookCanvas
